import Mathlib

/-!
Shallow embedding of the Bantuan front-end chat client
(`src/front-end/script.js`) and proofs about its specified behaviour.

The client is a browser script; we embed its pure logic directly
(string tables, endpoint resolution, export serialisation) and model its
DOM / network side effects as an explicit, ordered list of `Effect`s
produced by each handler, folded into an `AppState` by a small
event-step machine.  All definitions are transcribed from the source.
-/

namespace Bantuan

/-- Who authored a chat message (`sender` argument of `addMessage`). -/
inductive Sender
  | user
  | bot
deriving DecidableEq, Repr

/-- One message of the chat log as the conversation machine sees it. -/
structure ChatTurn where
  sender : Sender
  text : String
deriving DecidableEq, Repr

/-- One rendered message as the export / clear operations see it:
`handleDownloadChat` reads back the rendered sender label, timestamp and
text of every `.message` element. -/
structure LoggedTurn where
  sender : Sender
  time : String
  text : String
deriving DecidableEq, Repr

/-- Observable side effects of the handlers, in program order:
DOM appends (`addMessage`), input clearing, transient status notices
(`showStatusMessage` / `hideStatusMessage`), the `fetch` call, and timer
registration (`setTimeout` for the fallback / notice dismissal). -/
inductive Effect
  | appendTurn (sender : Sender) (text : String)
  | clearInput
  | showNotice (text kind : String)
  | hideNotice
  | networkRequest (url message language category : String)
  | scheduleFallback (message : String) (delayMs : Nat)
  | scheduleHideNotice (delayMs : Nat)
deriving DecidableEq, Repr

/-! ## Language registry (`getLanguageName`, `getLanguageCode`,
`updateChatPlaceholder`) -/

/-- The language codes present in all three static tables of the script. -/
def languageCodes : List String :=
  ["en", "id", "ms", "th", "vi", "tl", "my", "km", "lo", "bn"]

/-- Transcription of `getLanguageName`: the `languages` object lookup with
the JavaScript `|| 'Unknown'` default. -/
def getLanguageName (code : String) : String :=
  if code = "en" then "English"
  else if code = "id" then "Bahasa Indonesia"
  else if code = "ms" then "Bahasa Malaysia"
  else if code = "th" then "ไทย (Thai)"
  else if code = "vi" then "Tiếng Việt"
  else if code = "tl" then "Filipino"
  else if code = "my" then "မြန်မာ (Myanmar)"
  else if code = "km" then "ខ្មែរ (Khmer)"
  else if code = "lo" then "ລາວ (Lao)"
  else if code = "bn" then "বাংলা (Bengali)"
  else "Unknown"

/-- Transcription of `getLanguageCode`: the `speechCodes` object lookup
with the `|| 'en-US'` default. -/
def getLanguageCode (code : String) : String :=
  if code = "en" then "en-US"
  else if code = "id" then "id-ID"
  else if code = "ms" then "ms-MY"
  else if code = "th" then "th-TH"
  else if code = "vi" then "vi-VN"
  else if code = "tl" then "tl-PH"
  else if code = "my" then "my-MM"
  else if code = "km" then "km-KH"
  else if code = "lo" then "lo-LA"
  else if code = "bn" then "bn-BD"
  else "en-US"

/-- Transcription of the `placeholders` table of `updateChatPlaceholder`,
with the `|| placeholders.en` default. -/
def chatPlaceholder (code : String) : String :=
  if code = "en" then "Type your message here... (Press Enter to send)"
  else if code = "id" then "Ketik pesan Anda di sini... (Tekan Enter untuk mengirim)"
  else if code = "ms" then "Taip mesej anda di sini... (Tekan Enter untuk hantar)"
  else if code = "th" then "พิมพ์ข้อความของคุณที่นี่... (กด Enter เพื่อส่ง)"
  else if code = "vi" then "Nhập tin nhắn của bạn tại đây... (Nhấn Enter để gửi)"
  else if code = "tl" then "I-type ang inyong mensahe dito... (Pindutin ang Enter para ipadala)"
  else if code = "my" then "သင့်စာကိုဤနေရာတွင်ရိုက်ပါ... (ပို့ရန် Enter ကိုနှိပ်ပါ)"
  else if code = "km" then "បញ្ចូលសាររបស់អ្នកនៅទីនេះ... (ចុច Enter ដើម្បីផ្ញើ)"
  else if code = "lo" then "ພິມຂໍ້ຄວາມຂອງທ່ານທີ່ນີ້... (ກົດ Enter ເພື່ອສົ່ງ)"
  else if code = "bn" then "এখানে আপনার বার্তা টাইপ করুন... (পাঠাতে Enter চাপুন)"
  else "Type your message here... (Press Enter to send)"

/-! ## Endpoint resolution (`getApiEndpoint`) -/

/-- The parts of `window.location` read by `getApiEndpoint`, plus the
port, which determines the page origin.  `protocol` keeps its trailing
colon as in the DOM (`"https:"`); `port` is `""` on the default port. -/
structure PageLocation where
  protocol : String
  hostname : String
  port : String
deriving DecidableEq, Repr

/-- JavaScript `String.prototype.includes`: substring containment. -/
def includesSubstr (s pat : String) : Bool :=
  decide (pat.data <:+: s.data)

/-- The fixed local development base URL used for `file:` pages and
loopback hostnames. -/
def localBase : String := "http://localhost:5000"

/-- The fixed backend base URL used when the page is hosted on the Azure
static-hosting domain. -/
def azureBackendBase : String :=
  "https://bantuan-bjgjgwgrhmcwetah.australiaeast-01.azurewebsites.net"

/-- Transcription of `getApiEndpoint`.  `stored` models
`sessionStorage.getItem('backendUrl')` (`none` = absent); the JavaScript
truthiness test `if (backendUrl)` makes an empty stored string fall
through to the default, which is `protocol + "//" + hostname`. -/
def getApiEndpoint (loc : PageLocation) (stored : Option String) : String :=
  if loc.protocol = "file:" then localBase
  else if loc.hostname = "localhost" ∨ loc.hostname = "127.0.0.1" then localBase
  else if includesSubstr loc.hostname "azurestaticapps.net" then azureBackendBase
  else
    match stored with
    | some u => if u = "" then loc.protocol ++ "//" ++ loc.hostname else u
    | none => loc.protocol ++ "//" ++ loc.hostname

/-- The page's own origin (`window.location.origin`): scheme, host and,
when explicit, the port. -/
def pageOrigin (loc : PageLocation) : String :=
  loc.protocol ++ "//" ++ loc.hostname ++ (if loc.port = "" then "" else ":" ++ loc.port)

/-! ## Fallback responder (`generateBotResponse`) -/

/-- The `general` templates of the `responses` table.  Each template is a
function of the active language (read through `getLanguageName` in the
third template) and the user message it interpolates. -/
def generalTemplates : List (String → String → String) :=
  [ fun _ msg =>
      "I understand you need help. Based on your message \"" ++ msg ++
        "\", I'm here to assist you. What specific issue are you experiencing?",
    fun _ msg =>
      "Thank you for reaching out! I've noted your concern about \"" ++ msg ++
        "\". Let me help you resolve this step by step.",
    fun lang msg =>
      "I see you mentioned \"" ++ msg ++ "\". I'm processing this in " ++
        getLanguageName lang ++ " and will provide the best assistance possible." ]

/-- The `technical` templates of the `responses` table. -/
def technicalTemplates : List (String → String → String) :=
  [ fun _ msg =>
      "I can help with technical issues. Regarding \"" ++ msg ++
        "\", let me walk you through some troubleshooting steps.",
    fun _ msg =>
      "Technical support activated! For the issue \"" ++ msg ++
        "\", I recommend we start with basic diagnostics.",
    fun _ msg =>
      "I understand you're experiencing technical difficulties with \"" ++ msg ++
        "\". Let's solve this together." ]

/-- The `account` templates of the `responses` table. -/
def accountTemplates : List (String → String → String) :=
  [ fun _ msg =>
      "I can assist with account-related inquiries. About \"" ++ msg ++
        "\", I'll need to verify some information first.",
    fun _ msg =>
      "For account issues like \"" ++ msg ++
        "\", I can guide you through the resolution process securely.",
    fun _ msg =>
      "Account support here! I see your concern about \"" ++ msg ++
        "\". Let me help you with that." ]

/-- The `billing` templates of the `responses` table. -/
def billingTemplates : List (String → String → String) :=
  [ fun _ msg =>
      "I can help with billing questions. Regarding \"" ++ msg ++
        "\", let me provide you with the relevant information.",
    fun _ msg =>
      "For billing inquiries about \"" ++ msg ++
        "\", I can assist you with explanations and next steps.",
    fun _ msg =>
      "Billing support activated! I understand your question about \"" ++ msg ++
        "\". Let me clarify this for you." ]

/-- The `responses` object of `generateBotResponse` as a keyed lookup:
`none` for a category key the object does not have. -/
def responsesTable (category : String) : Option (List (String → String → String)) :=
  if category = "general" then some generalTemplates
  else if category = "technical" then some technicalTemplates
  else if category = "account" then some accountTemplates
  else if category = "billing" then some billingTemplates
  else none

/-- Transcription of `generateBotResponse`.  The JavaScript
`responses[currentCategory] || responses.general` becomes `Option.getD`;
`Math.random()` is modelled by the draw `q ∈ [0,1)` and the selected
index is `Math.floor(q * length)`. -/
def generateBotResponse (language category userMessage : String) (q : ℚ) : String :=
  let categoryResponses := (responsesTable category).getD generalTemplates
  let i := Int.toNat ⌊q * (categoryResponses.length : ℚ)⌋
  (categoryResponses.getD i (fun _ _ => "")) language userMessage

/-! ## Remote chat client (`sendMessageToBackend`) -/

/-- What `response.json()` yields: a rejection (malformed body) or the
parsed object's `status`, `response` and `error` fields, each possibly
absent. -/
inductive BodyOutcome
  | malformed (errMsg : String)
  | parsed (statusField responseField errorField : Option String)
deriving DecidableEq, Repr

/-- How the `fetch` promise settles: a network-level rejection (timeout,
DNS, connection refused) with its error message, or an HTTP response
with status code, status text and a body. -/
inductive FetchResult
  | networkError (errMsg : String)
  | response (status : Nat) (statusText : String) (body : BodyOutcome)
deriving DecidableEq, Repr

/-- JavaScript `a || b` on an optional string: an absent or empty field
falls back to the default. -/
def jsOrElse (o : Option String) (d : String) : String :=
  match o with
  | some s => if s = "" then d else s
  | none => d

/-- The `catch` block of `sendMessageToBackend`: dismiss the processing
notice, surface the error as a transient notice, and schedule the local
fallback for the captured message after a fixed 1000 ms delay. -/
def failureEffects (message errMsg : String) : List Effect :=
  [Effect.hideNotice,
   Effect.showNotice ("Error: " ++ errMsg) "error",
   Effect.scheduleFallback message 1000]

/-- Completion effects of `sendMessageToBackend` once its `fetch` has
settled as `fr`.  `response.ok` is status 200–299; a non-ok status, a
malformed body and a non-"success" `status` field all throw into the
`catch` block, as does a network-level rejection.  On success the
processing notice is dismissed and the body's `response` field is
appended as a bot turn (an absent field renders as "undefined"). -/
def sendMessageToBackend (message : String) (fr : FetchResult) : List Effect :=
  match fr with
  | FetchResult.networkError e => failureEffects message e
  | FetchResult.response status statusText body =>
    if ¬ (200 ≤ status ∧ status ≤ 299) then
      failureEffects message ("API error: " ++ toString status ++ " " ++ statusText)
    else
      match body with
      | BodyOutcome.malformed e => failureEffects message e
      | BodyOutcome.parsed sf rf ef =>
        if sf = some "success" then
          [Effect.hideNotice, Effect.appendTurn Sender.bot (rf.getD "undefined")]
        else
          failureEffects message (jsOrElse ef "Unknown error from API")

/-- The success condition of the remote call as the spec states it: HTTP
status in the success range and a body whose `status` field is
"success". -/
def isSuccessCase : FetchResult → Bool
  | FetchResult.response status _ (BodyOutcome.parsed sf _ _) =>
      decide (200 ≤ status ∧ status ≤ 299) && decide (sf = some "success")
  | _ => false

/-- The reply text of a successful remote call: the body's `response`
field ("undefined" when the field is absent, as in the DOM rendering of
`undefined`). -/
def successText : FetchResult → String
  | FetchResult.response _ _ (BodyOutcome.parsed _ rf _) => rf.getD "undefined"
  | _ => ""

/-! ## Trimming

JavaScript `String.prototype.trim` strips whitespace from both ends.
We model it by a structurally recursive function on the character list
(Lean's own `String.trim` is defined by well-founded recursion on
byte positions and does not reduce in the kernel). -/

/-- Drop leading whitespace characters. -/
def dropLeadingWs : List Char → List Char
  | [] => []
  | c :: cs => if c.isWhitespace then dropLeadingWs cs else c :: cs

/-- Model of JavaScript `raw.trim()`: strip whitespace from both ends. -/
def jsTrim (s : String) : String :=
  String.mk ((dropLeadingWs (dropLeadingWs s.data.reverse).reverse))

/-! ## Conversation controller as an event machine

The page is single-threaded and event-driven: each handler runs to
completion and its effects land in program order.  `AppState` carries
the session state (`currentLanguage`, `currentCategory`), the rendered
log, the full ordered effect trace, and the bookkeeping the event loop
owns: messages with an outstanding `fetch` and messages whose fallback
timer is pending.  A `setTimeout` fallback closure captures the local
`message`, while `generateBotResponse` reads the global
`currentCategory` and `currentLanguage` only when the timer fires. -/

structure AppState where
  currentLanguage : String
  currentCategory : String
  endpoint : String
  log : List ChatTurn
  trace : List Effect
  inFlight : List String
  pending : List String
deriving DecidableEq, Repr

/-- Record one effect: every effect extends the trace; appends extend
the log, the `fetch` call and the fallback timer register their captured
message. -/
def applyEffect (st : AppState) (e : Effect) : AppState :=
  match e with
  | Effect.appendTurn s t =>
      { st with log := st.log ++ [⟨s, t⟩], trace := st.trace ++ [e] }
  | Effect.networkRequest _ m _ _ =>
      { st with inFlight := st.inFlight ++ [m], trace := st.trace ++ [e] }
  | Effect.scheduleFallback m _ =>
      { st with pending := st.pending ++ [m], trace := st.trace ++ [e] }
  | _ => { st with trace := st.trace ++ [e] }

/-- Fold a handler's effect list into the state, in program order. -/
def applyEffects (st : AppState) (es : List Effect) : AppState :=
  es.foldl applyEffect st

/-- Synchronous effects of `handleSendMessage` for raw input `raw`: a
whitespace-only input returns immediately; otherwise the trimmed message
is appended as a user turn, the input is cleared, the processing notice
is shown and `sendMessageToBackend` issues the POST to
`endpoint + "/api/chat"` with the message, language and category. -/
def handleSendMessage (raw language category endpoint : String) : List Effect :=
  let message := jsTrim raw
  if message = "" then []
  else
    [Effect.appendTurn Sender.user message,
     Effect.clearInput,
     Effect.showNotice "Processing your request..." "info",
     Effect.networkRequest (endpoint ++ "/api/chat") message language category]

/-- Effects of `handleCategoryChange` besides the category assignment:
the announcement bot turn built from the trimmed button label. -/
def handleCategoryChange (label : String) : List Effect :=
  [Effect.appendTurn Sender.bot
    ("Switched to " ++ jsTrim label ++ " support. What can I help you with?")]

/-- The events the page's event loop can dispatch to the handlers we
model: a user send, the settlement of the oldest outstanding `fetch`,
the firing of the oldest pending fallback timer (with the `Math.random`
draw `q` it will consume), and a category-button click. -/
inductive Ev
  | userSend (raw : String)
  | fetchDone (fr : FetchResult)
  | timerFire (q : ℚ)
  | categoryChange (category label : String)

/-- One dispatch of the event loop. -/
def step (st : AppState) (ev : Ev) : AppState :=
  match ev with
  | Ev.userSend raw =>
      applyEffects st (handleSendMessage raw st.currentLanguage st.currentCategory st.endpoint)
  | Ev.fetchDone fr =>
      match st.inFlight with
      | [] => st
      | m :: rest => applyEffects { st with inFlight := rest } (sendMessageToBackend m fr)
  | Ev.timerFire q =>
      match st.pending with
      | [] => st
      | m :: rest =>
          applyEffects { st with pending := rest }
            [Effect.appendTurn Sender.bot
              (generateBotResponse st.currentLanguage st.currentCategory m q)]
  | Ev.categoryChange category label =>
      applyEffects { st with currentCategory := category } (handleCategoryChange label)

/-- Run a schedule of events from a state. -/
def run (st : AppState) (evs : List Ev) : AppState :=
  evs.foldl step st

/-! ## Export (`handleDownloadChat`) and clear (`handleClearChat`) -/

/-- The rendered sender label (`message-sender` text) of a turn. -/
def senderLabel : Sender → String
  | Sender.bot => "Bantuan Bot"
  | Sender.user => "You"

/-- One turn record of the exported log:
`[timestamp] sender:` newline, the text, then a blank line. -/
def turnRecord (t : LoggedTurn) : String :=
  "[" ++ t.time ++ "] " ++ senderLabel t.sender ++ ":\n" ++ t.text ++ "\n\n"

/-- The `'='.repeat(50)` separator of the export header. -/
def separatorLine : String := String.mk (List.replicate 50 '=')

/-- The header block of the exported log: title, generation timestamp,
active language display name, active category id, separator line. -/
def exportHeader (generated languageName category : String) : String :=
  "Bantuan Support Chat Log\n" ++
    "Generated: " ++ generated ++ "\n" ++
    "Language: " ++ languageName ++ "\n" ++
    "Category: " ++ category ++ "\n" ++
    separatorLine ++ "\n\n"

/-- Transcription of the serialisation loop of `handleDownloadChat`:
start from the header and `forEach` append one record per rendered
message, in document order. -/
def handleDownloadChat (generated languageName category : String)
    (turns : List LoggedTurn) : String :=
  turns.foldl (fun acc t => acc ++ turnRecord t) (exportHeader generated languageName category)

/-- Concatenation of a list of strings, head first. -/
def concatAll : List String → String
  | [] => ""
  | s :: l => s ++ concatAll l

/-- The greeting text `handleClearChat` reseeds the log with. -/
def greetingText : String :=
  "Hello! I'm Bantuan, your multi-lingual support assistant. I can help you in multiple ASEAN languages. How can I assist you today?"

/-- The single greeting turn of a cleared chat (its rendered time is the
literal "Just now"). -/
def greetingTurn : LoggedTurn := ⟨Sender.bot, "Just now", greetingText⟩

/-- Transcription of `handleClearChat`: the `confirm(...)` result guards
the reset; on decline nothing changes, on confirmation the whole log is
replaced by the single greeting turn. -/
def handleClearChat (confirmed : Bool) (log : List LoggedTurn) : List LoggedTurn :=
  if confirmed then [greetingTurn] else log

/-! ## Voice input controller (`recognition` callbacks) -/

/-- The voice controller's state: the `isListening` flag plus the
ordered trace of its visible effects. -/
structure VoiceState where
  isListening : Bool
  trace : List Effect
deriving DecidableEq, Repr

/-- Transcription of `recognition.onerror`: it shows the transient error
notice and schedules its dismissal after 3000 ms; it does not touch
`isListening`. -/
def recognitionOnError (st : VoiceState) : VoiceState :=
  { st with
    trace := st.trace ++
      [Effect.showNotice "Voice recognition error. Please try again." "error",
       Effect.scheduleHideNotice 3000] }

/-- Transcription of `recognition.onend`: it resets `isListening` and
hides the status message (the icon/colour reset is visual only). -/
def recognitionOnEnd (st : VoiceState) : VoiceState :=
  { st with isListening := false, trace := st.trace ++ [Effect.hideNotice] }

/-- A fresh page-load state of the machine, used to instantiate the
scenario theorems at concrete inputs. -/
def demoState : AppState :=
  { currentLanguage := "en", currentCategory := "general",
    endpoint := "http://localhost:5000", log := [], trace := [],
    inFlight := [], pending := [] }

/-! ## Helper lemmas -/

/-- Whatever the category, the table `generateBotResponse` selects from
has exactly three templates. -/
theorem resolvedTable_length (category : String) :
    ((responsesTable category).getD generalTemplates).length = 3 := by
  unfold responsesTable
  split_ifs <;> rfl

/-- A draw `q ∈ [0,1)` selects an index below 3. -/
theorem floor_draw_lt (q : ℚ) (h0 : 0 ≤ q) (h1 : q < 1) :
    Int.toNat ⌊q * 3⌋ < 3 := by
  have hlo : (0:ℤ) ≤ ⌊q * 3⌋ := Int.floor_nonneg.mpr (by positivity)
  have hhi : ⌊q * 3⌋ < 3 := Int.floor_lt.mpr (by push_cast; linarith)
  omega

/-- The fallback responder always returns one of the selected category
table's templates with the user message interpolated. -/
theorem generateBotResponse_mem (language category msg : String) (q : ℚ)
    (h0 : 0 ≤ q) (h1 : q < 1) :
    generateBotResponse language category msg q
      ∈ ((responsesTable category).getD generalTemplates).map (fun t => t language msg) := by
  have hlen := resolvedTable_length category
  have hi : Int.toNat ⌊q * (((responsesTable category).getD generalTemplates).length : ℚ)⌋
      < ((responsesTable category).getD generalTemplates).length := by
    rw [hlen]
    exact_mod_cast floor_draw_lt q h0 h1
  simp only [generateBotResponse]
  rw [List.getD_eq_getElem _ _ hi]
  exact List.mem_map_of_mem _ (List.getElem_mem hi)

/-- Serialising from any accumulator appends the records of the turns in
order. -/
theorem downloadChat_foldl (turns : List LoggedTurn) (init : String) :
    turns.foldl (fun acc t => acc ++ turnRecord t) init
      = init ++ concatAll (turns.map turnRecord) := by
  induction turns generalizing init with
  | nil => simp [concatAll]
  | cons t ts ih => simp [concatAll, ih, String.append_assoc]

/-! ## Claim theorems -/

/-- C4 counterexample: on a page served from a non-default port with no
special hostname and no stored override, `getApiEndpoint` returns the
scheme and hostname only, which is not the page's own origin (the origin
keeps the explicit port). -/
theorem c4_counterexample :
    getApiEndpoint ⟨"https:", "example.com", "8443"⟩ none = "https://example.com"
    ∧ pageOrigin ⟨"https:", "example.com", "8443"⟩ = "https://example.com:8443"
    ∧ getApiEndpoint ⟨"https:", "example.com", "8443"⟩ none
        ≠ pageOrigin ⟨"https:", "example.com", "8443"⟩ := by
  refine ⟨by decide, by decide, by decide⟩

/-- C4 (amended): endpoint resolution is a pure function of the
deployment context with the stated priority order, except that the final
default is the page's scheme plus hostname — the origin stripped of any
explicit port — and a stored override is used only when non-empty. -/
theorem c4_endpoint_resolution (loc : PageLocation) (stored : Option String) :
    (loc.protocol = "file:" → getApiEndpoint loc stored = localBase)
    ∧ (loc.hostname = "localhost" ∨ loc.hostname = "127.0.0.1" →
        getApiEndpoint loc stored = localBase)
    ∧ (loc.protocol ≠ "file:" → loc.hostname ≠ "localhost" → loc.hostname ≠ "127.0.0.1" →
        includesSubstr loc.hostname "azurestaticapps.net" = true →
        getApiEndpoint loc stored = azureBackendBase)
    ∧ (loc.protocol ≠ "file:" → loc.hostname ≠ "localhost" → loc.hostname ≠ "127.0.0.1" →
        includesSubstr loc.hostname "azurestaticapps.net" = false →
        ∀ u, stored = some u → u ≠ "" → getApiEndpoint loc stored = u)
    ∧ (loc.protocol ≠ "file:" → loc.hostname ≠ "localhost" → loc.hostname ≠ "127.0.0.1" →
        includesSubstr loc.hostname "azurestaticapps.net" = false →
        (stored = none ∨ stored = some "") →
        getApiEndpoint loc stored = loc.protocol ++ "//" ++ loc.hostname) := by
  refine ⟨fun h => by simp [getApiEndpoint, h], fun h => ?_, fun h1 h2 h3 h4 => ?_,
    fun h1 h2 h3 h4 u hu hne => ?_, fun h1 h2 h3 h4 h5 => ?_⟩
  · by_cases hp : loc.protocol = "file:" <;> simp [getApiEndpoint, hp, h]
  · simp [getApiEndpoint, h1, h2, h3, h4]
  · simp [getApiEndpoint, h1, h2, h3, h4, hu, hne]
  · rcases h5 with h5 | h5 <;> simp [getApiEndpoint, h1, h2, h3, h4, h5]

/-- C4 witness: a static-web-app hostname resolves to the fixed backend
base. -/
theorem c4_witness :
    getApiEndpoint ⟨"https:", "wonderful-sky.1.azurestaticapps.net", ""⟩ none
      = azureBackendBase :=
  (c4_endpoint_resolution ⟨"https:", "wonderful-sky.1.azurestaticapps.net", ""⟩ none).2.2.1
    (by decide) (by decide) (by decide) (by decide)

/-- C5 counterexample: the display name of an unknown language code is
the literal "Unknown", not the English entry's display name, while the
other two components do fall back to English. -/
theorem c5_counterexample :
    getLanguageName "xx" = "Unknown"
    ∧ getLanguageCode "xx" = "en-US"
    ∧ chatPlaceholder "xx" = chatPlaceholder "en"
    ∧ getLanguageName "xx" ≠ getLanguageName "en" := by
  refine ⟨rfl, rfl, rfl, by decide⟩

/-- C5 (amended): language resolution is total; an unknown code maps to
the English entry for the speech-recognition locale and the input
placeholder, but its display name is the fixed string "Unknown". -/
theorem c5_language_resolution (code : String) (h : code ∉ languageCodes) :
    getLanguageName code = "Unknown"
    ∧ getLanguageCode code = getLanguageCode "en"
    ∧ chatPlaceholder code = chatPlaceholder "en" := by
  simp only [languageCodes, List.mem_cons, List.not_mem_nil, or_false, not_or] at h
  obtain ⟨h1, h2, h3, h4, h5, h6, h7, h8, h9, h10⟩ := h
  refine ⟨?_, ?_, ?_⟩ <;>
    simp [getLanguageName, getLanguageCode, chatPlaceholder,
      h1, h2, h3, h4, h5, h6, h7, h8, h9, h10]

/-- C5 witness: the code "xx" is not in the registry and resolves as the
amended claim states. -/
theorem c5_witness :
    getLanguageName "xx" = "Unknown"
    ∧ getLanguageCode "xx" = getLanguageCode "en"
    ∧ chatPlaceholder "xx" = chatPlaceholder "en" :=
  c5_language_resolution "xx" (by decide)

/-- C6: the exported artifact is the header block followed by exactly
one record per logged turn, in log order, each record reproducing the
turn's stored timestamp, sender label and text verbatim. -/
theorem c6_export_format (generated languageName category : String)
    (turns : List LoggedTurn) :
    handleDownloadChat generated languageName category turns
      = exportHeader generated languageName category ++ concatAll (turns.map turnRecord)
    ∧ (turns.map turnRecord).length = turns.length
    ∧ (∀ i : ℕ, (turns.map turnRecord)[i]? = Option.map turnRecord turns[i]?)
    ∧ (∀ t : LoggedTurn,
        turnRecord t = "[" ++ t.time ++ "] " ++ senderLabel t.sender ++ ":\n" ++ t.text ++ "\n\n") :=
  ⟨downloadChat_foldl turns (exportHeader generated languageName category),
   List.length_map turns turnRecord,
   fun i => (List.getElem?_map turnRecord turns i).symm ▸ rfl,
   fun _ => rfl⟩

/-- C7: clearing without confirmation leaves the log unchanged; with
confirmation the whole log is replaced by exactly one bot greeting
turn. -/
theorem c7_clear (log : List LoggedTurn) :
    handleClearChat false log = log
    ∧ handleClearChat true log = [greetingTurn]
    ∧ (handleClearChat true log).length = 1
    ∧ greetingTurn.sender = Sender.bot
    ∧ greetingTurn.text = greetingText :=
  ⟨rfl, rfl, rfl, rfl, rfl⟩

/-- C8 counterexample: the `onerror` handler alone leaves `isListening`
true; it only surfaces the transient error notice.  The transition to
Idle is not performed by the error handler. -/
theorem c8_counterexample :
    (recognitionOnError ⟨true, []⟩).isListening = true
    ∧ (recognitionOnError ⟨true, []⟩).trace
        = [Effect.showNotice "Voice recognition error. Please try again." "error",
           Effect.scheduleHideNotice 3000] :=
  ⟨rfl, rfl⟩

/-- C8 (amended): on a platform error the error handler surfaces the
transient error notice and leaves `isListening` unchanged; the
transition to Idle (`isListening = false`) is performed by the `onend`
handler, which the platform fires after an error, so after the
error-then-end sequence the controller is Idle with the notice
surfaced. -/
theorem c8_error_to_idle (st : VoiceState) :
    (recognitionOnError st).isListening = st.isListening
    ∧ (recognitionOnError st).trace
        = st.trace ++ [Effect.showNotice "Voice recognition error. Please try again." "error",
                       Effect.scheduleHideNotice 3000]
    ∧ (recognitionOnEnd (recognitionOnError st)).isListening = false
    ∧ (recognitionOnEnd (recognitionOnError st)).trace
        = st.trace ++ [Effect.showNotice "Voice recognition error. Please try again." "error",
                       Effect.scheduleHideNotice 3000, Effect.hideNotice] := by
  refine ⟨rfl, rfl, rfl, ?_⟩
  simp [recognitionOnEnd, recognitionOnError, List.append_assoc]

/-- C9: the fallback responder is total: for every category (an unknown
one selects the `general` table) and every message it returns one of the
selected table's three templates with the message interpolated, and the
floor of `q * 3` selects each of the three templates on an interval of
draws of equal length 1/3 — the uniform selection of the claim. -/
theorem c9_fallback_total (category language msg : String) (q : ℚ)
    (h0 : 0 ≤ q) (h1 : q < 1) :
    generateBotResponse language category msg q
        ∈ ((responsesTable category).getD generalTemplates).map (fun t => t language msg)
    ∧ (responsesTable category = none →
        (responsesTable category).getD generalTemplates = generalTemplates)
    ∧ (∀ k : ℕ, k < 3 →
        (Int.toNat ⌊q * 3⌋ = k ↔ (k : ℚ) / 3 ≤ q ∧ q < ((k : ℚ) + 1) / 3)) := by
  refine ⟨generateBotResponse_mem language category msg q h0 h1,
    fun h => by rw [h]; rfl, fun k hk => ?_⟩
  have hnn : (0:ℤ) ≤ ⌊q * 3⌋ := Int.floor_nonneg.mpr (by positivity)
  constructor
  · intro h
    have hf : ⌊q * 3⌋ = (k : ℤ) := by omega
    have hiff := Int.floor_eq_iff.mp hf
    push_cast at hiff
    constructor
    · rw [div_le_iff₀ (by norm_num : (0:ℚ) < 3)]
      linarith [hiff.1]
    · rw [lt_div_iff₀ (by norm_num : (0:ℚ) < 3)]
      linarith [hiff.2]
  · rintro ⟨ha, hb⟩
    rw [div_le_iff₀ (by norm_num : (0:ℚ) < 3)] at ha
    rw [lt_div_iff₀ (by norm_num : (0:ℚ) < 3)] at hb
    have hf : ⌊q * 3⌋ = (k : ℤ) := Int.floor_eq_iff.mpr (by push_cast; exact ⟨ha, hb⟩)
    omega

/-- C9 witness: a concrete unknown category and the draw 1/2 select the
second `general` template. -/
theorem c9_witness :
    ((0:ℚ) ≤ 1/2 ∧ (1/2:ℚ) < 1)
    ∧ generateBotResponse "en" "weird" "hello" (1/2)
        ∈ ((responsesTable "weird").getD generalTemplates).map (fun t => t "en" "hello") :=
  ⟨⟨by norm_num, by norm_num⟩,
   (c9_fallback_total "weird" "en" "hello" (1/2) (by norm_num) (by norm_num)).1⟩

/-- C1: a send with non-empty trimmed text appends exactly one user turn
and its trace places that append strictly before the network request;
a whitespace-only send leaves the state untouched — no turn appended, no
network call. -/
theorem c1_send_gate (st : AppState) (raw : String) :
    (jsTrim raw = "" → step st (Ev.userSend raw) = st)
    ∧ (jsTrim raw ≠ "" →
        (step st (Ev.userSend raw)).log = st.log ++ [⟨Sender.user, jsTrim raw⟩]
        ∧ (step st (Ev.userSend raw)).trace
            = st.trace ++
              [Effect.appendTurn Sender.user (jsTrim raw), Effect.clearInput,
               Effect.showNotice "Processing your request..." "info",
               Effect.networkRequest (st.endpoint ++ "/api/chat") (jsTrim raw)
                 st.currentLanguage st.currentCategory]) := by
  constructor
  · intro h
    simp [step, handleSendMessage, h, applyEffects]
  · intro h
    constructor <;>
      simp [step, handleSendMessage, h, applyEffects, applyEffect, List.append_assoc]

/-- C1 witness: a whitespace-only raw input is a no-op, and the send of
" hi " appends the single user turn "hi". -/
theorem c1_witness :
    step demoState (Ev.userSend "   ") = demoState
    ∧ (step demoState (Ev.userSend " hi ")).log = demoState.log ++ [⟨Sender.user, "hi"⟩] :=
  ⟨(c1_send_gate demoState "   ").1 (by decide),
   ((c1_send_gate demoState " hi ").2 (by decide)).1⟩

/-- C2: the settlement of the remote call appends a bot turn with the
body's `response` field exactly when the HTTP status is in 200–299 and
the body's `status` field is "success"; every other settlement — bad
status, non-"success" status field, malformed body or network-level
rejection — appends nothing and instead surfaces an error notice and
schedules the fallback, its notice carrying a human-readable message. -/
theorem c2_outcome_classification (st : AppState) (m : String) (rest : List String)
    (fr : FetchResult) (hin : st.inFlight = m :: rest) :
    (isSuccessCase fr = true →
        (step st (Ev.fetchDone fr)).log = st.log ++ [⟨Sender.bot, successText fr⟩]
        ∧ (step st (Ev.fetchDone fr)).trace
            = st.trace ++ [Effect.hideNotice, Effect.appendTurn Sender.bot (successText fr)]
        ∧ (step st (Ev.fetchDone fr)).pending = st.pending)
    ∧ (isSuccessCase fr = false →
        (step st (Ev.fetchDone fr)).log = st.log
        ∧ ∃ errMsg,
            (step st (Ev.fetchDone fr)).trace
              = st.trace ++
                [Effect.hideNotice, Effect.showNotice ("Error: " ++ errMsg) "error",
                 Effect.scheduleFallback m 1000]
            ∧ (step st (Ev.fetchDone fr)).pending = st.pending ++ [m]) := by
  cases fr with
  | networkError e =>
    refine ⟨fun hsucc => by simp [isSuccessCase] at hsucc, fun _ => ⟨?_, e, ?_, ?_⟩⟩ <;>
      simp [step, hin, sendMessageToBackend, failureEffects, applyEffects, applyEffect,
        List.append_assoc]
  | response status statusText body =>
    cases body with
    | malformed e =>
      refine ⟨fun hsucc => by simp [isSuccessCase] at hsucc, fun _ => ?_⟩
      by_cases hok : 200 ≤ status ∧ status ≤ 299
      · refine ⟨?_, e, ?_, ?_⟩ <;>
          simp [step, hin, sendMessageToBackend, hok, failureEffects, applyEffects,
            applyEffect, List.append_assoc]
      · refine ⟨?_, "API error: " ++ toString status ++ " " ++ statusText, ?_, ?_⟩ <;>
          simp [step, hin, sendMessageToBackend, hok, failureEffects, applyEffects,
            applyEffect, List.append_assoc]
    | parsed sf rf ef =>
      by_cases hok : 200 ≤ status ∧ status ≤ 299
      · by_cases hsf : sf = some "success"
        · refine ⟨fun _ => ⟨?_, ?_, ?_⟩,
            fun hfail => by simp [isSuccessCase, hok, hsf] at hfail⟩ <;>
            simp [step, hin, sendMessageToBackend, hok, hsf, successText, applyEffects,
              applyEffect, List.append_assoc]
        · refine ⟨fun hsucc => by simp [isSuccessCase, hok, hsf] at hsucc,
            fun _ => ⟨?_, jsOrElse ef "Unknown error from API", ?_, ?_⟩⟩ <;>
            simp [step, hin, sendMessageToBackend, hok, hsf, failureEffects, applyEffects,
              applyEffect, List.append_assoc]
      · refine ⟨fun hsucc => by simp [isSuccessCase, hok] at hsucc,
          fun _ => ⟨?_, "API error: " ++ toString status ++ " " ++ statusText, ?_, ?_⟩⟩ <;>
          simp [step, hin, sendMessageToBackend, hok, failureEffects, applyEffects,
            applyEffect, List.append_assoc]

/-- C2 witness: with one outstanding send, a 200 response whose body has
status "success" and response "Hi there" appends exactly that bot
turn. -/
theorem c2_witness :
    (step { demoState with inFlight := ["hello"] }
        (Ev.fetchDone (FetchResult.response 200 "OK"
          (BodyOutcome.parsed (some "success") (some "Hi there") none)))).log
      = ({ demoState with inFlight := ["hello"] } : AppState).log ++ [⟨Sender.bot, "Hi there"⟩] :=
  ((c2_outcome_classification { demoState with inFlight := ["hello"] } "hello" []
      (FetchResult.response 200 "OK" (BodyOutcome.parsed (some "success") (some "Hi there") none))
      rfl).1 (by decide)).1

/-- C3: when the remote call fails, exactly one bot turn is appended
after the user's; its text is one of the active category's templates
with the original user message interpolated, and the trace appends it
strictly after the transient failure notice and strictly after the
original user turn. -/
theorem c3_failure_fallback (st : AppState) (raw errMsg : String) (q : ℚ)
    (hraw : jsTrim raw ≠ "") (h0 : 0 ≤ q) (h1 : q < 1)
    (hflight : st.inFlight = []) (hpending : st.pending = []) :
    ∃ fb,
      (run st [Ev.userSend raw, Ev.fetchDone (FetchResult.networkError errMsg),
          Ev.timerFire q]).log
        = st.log ++ [⟨Sender.user, jsTrim raw⟩, ⟨Sender.bot, fb⟩]
      ∧ fb ∈ ((responsesTable st.currentCategory).getD generalTemplates).map
            (fun t => t st.currentLanguage (jsTrim raw))
      ∧ (run st [Ev.userSend raw, Ev.fetchDone (FetchResult.networkError errMsg),
          Ev.timerFire q]).trace
        = st.trace ++
          [Effect.appendTurn Sender.user (jsTrim raw), Effect.clearInput,
           Effect.showNotice "Processing your request..." "info",
           Effect.networkRequest (st.endpoint ++ "/api/chat") (jsTrim raw)
             st.currentLanguage st.currentCategory,
           Effect.hideNotice, Effect.showNotice ("Error: " ++ errMsg) "error",
           Effect.scheduleFallback (jsTrim raw) 1000,
           Effect.appendTurn Sender.bot fb] := by
  refine ⟨generateBotResponse st.currentLanguage st.currentCategory (jsTrim raw) q,
    ?_, generateBotResponse_mem st.currentLanguage st.currentCategory (jsTrim raw) q h0 h1, ?_⟩ <;>
    simp [run, step, handleSendMessage, hraw, hflight, hpending, sendMessageToBackend,
      failureEffects, applyEffects, applyEffect, List.append_assoc]

/-- C3 witness: from a fresh state, the send of "help", a network-level
failure and the fallback timer leave the log with exactly the user turn
and one fallback bot turn from the general table. -/
theorem c3_witness :
    ∃ fb,
      (run demoState [Ev.userSend "help", Ev.fetchDone (FetchResult.networkError "Failed to fetch"),
          Ev.timerFire (1/2)]).log
        = demoState.log ++ [⟨Sender.user, jsTrim "help"⟩, ⟨Sender.bot, fb⟩]
      ∧ fb ∈ ((responsesTable demoState.currentCategory).getD generalTemplates).map
            (fun t => t demoState.currentLanguage (jsTrim "help"))
      ∧ (run demoState [Ev.userSend "help", Ev.fetchDone (FetchResult.networkError "Failed to fetch"),
          Ev.timerFire (1/2)]).trace
        = demoState.trace ++
          [Effect.appendTurn Sender.user (jsTrim "help"), Effect.clearInput,
           Effect.showNotice "Processing your request..." "info",
           Effect.networkRequest (demoState.endpoint ++ "/api/chat") (jsTrim "help")
             demoState.currentLanguage demoState.currentCategory,
           Effect.hideNotice, Effect.showNotice ("Error: " ++ "Failed to fetch") "error",
           Effect.scheduleFallback (jsTrim "help") 1000,
           Effect.appendTurn Sender.bot fb] :=
  c3_failure_fallback demoState "help" "Failed to fetch" (1/2)
    (by decide) (by norm_num) (by norm_num) rfl rfl

/-- C10: if the category changes between the failed send and the firing
of the fallback timer, the fallback turn draws its template from the
table of the category current when the timer fires, while the
interpolated message is the one captured at send time. -/
theorem c10_fallback_category_at_fire (st : AppState)
    (raw errMsg catNew label : String) (q : ℚ)
    (hraw : jsTrim raw ≠ "") (h0 : 0 ≤ q) (h1 : q < 1)
    (hflight : st.inFlight = []) (hpending : st.pending = []) :
    ∃ fb,
      (run st [Ev.userSend raw, Ev.fetchDone (FetchResult.networkError errMsg),
          Ev.categoryChange catNew label, Ev.timerFire q]).log
        = st.log ++
          [⟨Sender.user, jsTrim raw⟩,
           ⟨Sender.bot, "Switched to " ++ jsTrim label ++ " support. What can I help you with?"⟩,
           ⟨Sender.bot, fb⟩]
      ∧ fb = generateBotResponse st.currentLanguage catNew (jsTrim raw) q
      ∧ fb ∈ ((responsesTable catNew).getD generalTemplates).map
            (fun t => t st.currentLanguage (jsTrim raw)) := by
  refine ⟨generateBotResponse st.currentLanguage catNew (jsTrim raw) q, ?_, rfl,
    generateBotResponse_mem st.currentLanguage catNew (jsTrim raw) q h0 h1⟩
  simp [run, step, handleSendMessage, handleCategoryChange, hraw, hflight, hpending,
    sendMessageToBackend, failureEffects, applyEffects, applyEffect, List.append_assoc]

/-- C10 witness: a send under category "general" whose fallback fires
after a switch to "account" draws from the account table. -/
theorem c10_witness :
    ∃ fb,
      (run demoState [Ev.userSend "reset my password",
          Ev.fetchDone (FetchResult.networkError "Failed to fetch"),
          Ev.categoryChange "account" "Account", Ev.timerFire 0]).log
        = demoState.log ++
          [⟨Sender.user, jsTrim "reset my password"⟩,
           ⟨Sender.bot, "Switched to " ++ jsTrim "Account" ++ " support. What can I help you with?"⟩,
           ⟨Sender.bot, fb⟩]
      ∧ fb = generateBotResponse demoState.currentLanguage "account" (jsTrim "reset my password") 0
      ∧ fb ∈ ((responsesTable "account").getD generalTemplates).map
            (fun t => t demoState.currentLanguage (jsTrim "reset my password")) :=
  c10_fallback_category_at_fire demoState "reset my password" "Failed to fetch" "account"
    "Account" 0 (by decide) (by norm_num) (by norm_num) rfl rfl

end Bantuan
